import Mathlib

/-!
Shallow embedding of the shutdown coordinator in
`src/util/upkeep/src/lib.rs` (crate `replicante_util_upkeep`).

The coordinator (`Upkeep`) owns an ordered registry of worker threads
(each tagged required/optional), an ordered list of shutdown callbacks,
and process-signal state (a one-shot flag plus a notification channel).
`keepalive` multiplexes over the signal channel and one completion source
per registered thread (`select_set`: index 0 = signal receiver, index
n = thread n-1), and on the first shutdown-triggering event broadcasts
stop requests, runs callbacks, joins all remaining threads, and returns
a clean/unclean verdict.

Modelling choices:
  * Thread handles are identified by a `Nat` id; what a `join` on a
    handle returns is environmental (decided by the worker's own
    execution), so join outcomes are inputs to the model: the Waiting
    loop consumes a schedule of ready events (`Event`), each thread
    event carrying the join outcome observed there, and the final join
    sweep reads per-thread outcomes from an environment `Nat → JoinRes`.
  * `crossbeam_channel::Select::ready()` blocks until a registered
    source is ready and consumes nothing.  A signal event is possible
    only while the signal channel holds a message (`signalQueue > 0`);
    a thread event only for an index inside the registry.  The loop
    returns `none` when no (valid) event lets it break: `none` models
    `keepalive` still blocked, never a normal return.
  * Side effects (stop requests, callback invocations, join attempts)
    are recorded in an `Effect` trace in execution order.
  * `std::process::exit(1)` inside the signal handler is the
    `HandlerOutcome.exited` constructor.
-/

/-- Outcome of joining a thread handle, after the classification the code
applies to `humthreads` results: `Ok(())`, `ErrorKind::Join(_)` (panic),
or any other error kind — in this code path `ErrorKind::JoinedAlready`. -/
inductive JoinRes
  | ok
  | panicked
  | alreadyJoined
deriving DecidableEq, Repr

/-- `struct ThreadMeta { handle: MapThread<()>, required: bool }`
(src/util/upkeep/src/lib.rs lines 260-263); the handle is reduced to an id. -/
structure ThreadMeta where
  tid : Nat
  required : Bool
deriving DecidableEq, Repr

/-- One ready event observed by `set.ready()` in the Waiting loop:
index 0 (the signal receiver) or index k+1 (thread at position k in the
registry), the latter carrying the outcome of the join attempted there. -/
inductive Event
  | signal
  | threadReady (k : Nat) (res : JoinRes)
deriving DecidableEq, Repr

/-- Observable side effects of the coordinator, recorded in order. -/
inductive Effect
  | joinAttempt (tid : Nat) (res : JoinRes)
  | requestStop (tid : Nat)
  | runCallback (cid : Nat)
  | joinFinal (tid : Nat) (res : JoinRes)
deriving DecidableEq, Repr

/-- `pub struct Upkeep` (src/util/upkeep/src/lib.rs lines 52-60).
Callbacks are identified by `Nat` ids; `signalSenderTaken` mirrors
`signal_sender: Option<Sender<()>>` (`true` = `None`, i.e. taken);
`signalQueue` is the number of messages sitting in the signal channel. -/
structure Upkeep where
  callbacks : List Nat
  threads : List ThreadMeta
  signalSenderTaken : Bool
  registeredSignals : List Nat
  signalFlag : Bool
  signalQueue : Nat
deriving DecidableEq, Repr

/-- `Upkeep::new` (lines 63-75). -/
def Upkeep.new : Upkeep :=
  { callbacks := []
    threads := []
    signalSenderTaken := false
    registeredSignals := []
    signalFlag := false
    signalQueue := 0 }

/-- `Upkeep::on_shutdown` (lines 135-140): append a callback. -/
def Upkeep.on_shutdown (up : Upkeep) (cid : Nat) : Upkeep :=
  { up with callbacks := up.callbacks ++ [cid] }

/-- `Upkeep::register_thread` (lines 177-183): append a required thread. -/
def Upkeep.register_thread (up : Upkeep) (tid : Nat) : Upkeep :=
  { up with threads := up.threads ++ [ThreadMeta.mk tid true] }

/-- `Upkeep::register_thread_optional` (lines 188-194). -/
def Upkeep.register_thread_optional (up : Upkeep) (tid : Nat) : Upkeep :=
  { up with threads := up.threads ++ [ThreadMeta.mk tid false] }

/-- The Waiting loop of `Upkeep::keepalive` (lines 87-128).
Arguments: current registry, messages pending on the signal channel
(`ready()` consumes nothing, so this count never changes), the running
`clean_exit` flag, and the schedule of ready events.  Returns the
registry, `clean_exit` and the trace at the `break`, or `none` while the
loop is still blocked in `set.ready()` (schedule exhausted or the
scheduled source cannot be ready). -/
def waitLoop : List ThreadMeta → Nat → Bool → List Event →
    Option (List ThreadMeta × Bool × List Effect)
  | _, _, _, [] => none
  | threads, sigQ, clean, Event.signal :: _ =>
      -- index 0: warn "Shutdown: signal received"; break
      if 0 < sigQ then some (threads, clean, []) else none
  | threads, sigQ, clean, Event.threadReady k res :: rest =>
      match threads[k]? with
      | none => none
      | some t =>
          if res = JoinRes.panicked then
            -- capture_fail "Thread paniced"; clean_exit = false; break
            some (threads, false, [Effect.joinAttempt t.tid res])
          else if t.required then
            -- warn "Shutdown: thread exited"; break
            some (threads, clean, [Effect.joinAttempt t.tid res])
          else
            -- optional thread exited without a panic: remove it, loop
            (waitLoop (threads.eraseIdx k) sigQ clean rest).map
              (fun out => (out.1, out.2.1, Effect.joinAttempt t.tid res :: out.2.2))

/-- `Upkeep::shutdown` (lines 234-243): request shutdown of every
registered thread in registry order, then run every callback in
registration order.  The Rust method iterates by reference and mutates
nothing, so the state is returned unchanged. -/
def Upkeep.shutdown (up : Upkeep) : Upkeep × List Effect :=
  (up, up.threads.map (fun t => Effect.requestStop t.tid)
        ++ up.callbacks.map (fun c => Effect.runCallback c))

/-- Classification applied by `Upkeep::join_threads` to one join result:
`Err(JoinedAlready)` is benign (debug "Joined thread twice"), any other
error is a panic (`capture_fail`, `clean_exit = false`). -/
def joinOne : JoinRes → Bool
  | JoinRes.panicked => false
  | _ => true

/-- `Upkeep::join_threads` (lines 202-216): drain the registry joining
every thread; the sweep's per-thread join outcomes come from `env`. -/
def Upkeep.join_threads (up : Upkeep) (env : Nat → JoinRes) :
    Upkeep × Bool × List Effect :=
  ({ up with threads := [] }
  , up.threads.all (fun t => joinOne (env t.tid))
  , up.threads.map (fun t => Effect.joinFinal t.tid (env t.tid)))

/-- `Upkeep::keepalive` (lines 81-132): run the Waiting loop, then
`self.shutdown()`, then `self.join_threads() && clean_exit`.
`none` models the call still blocked inside the Waiting loop. -/
def Upkeep.keepalive (up : Upkeep) (sched : List Event) (env : Nat → JoinRes) :
    Option (Bool × Upkeep × List Effect) :=
  match waitLoop up.threads up.signalQueue true sched with
  | none => none
  | some (threads1, cleanWait, waitTr) =>
      let up1 : Upkeep := { up with threads := threads1 }
      let (up2, sdTr) := up1.shutdown
      let (up3, cleanJoin, joinTr) := up2.join_threads env
      some (cleanJoin && cleanWait, up3, waitTr ++ sdTr ++ joinTr)

def SIGINT : Nat := 2
def SIGTERM : Nat := 15

/-- `Upkeep::register_signal` (lines 143-166).  `os` models
`signal_hook::low_level::register`: `some id` on success, `none` when the
OS refuses the handler (the `?` early-returns the error, modelled as the
`false` component).  The sender is taken up front; each successful
registration pushes its `SigId` before the next is attempted. -/
def Upkeep.register_signal (up : Upkeep) (os : Nat → Option Nat) :
    Upkeep × Bool :=
  if up.signalSenderTaken then (up, true)
  else
    let up1 : Upkeep := { up with signalSenderTaken := true }
    match os SIGINT with
    | none => (up1, false)
    | some id1 =>
        let up2 : Upkeep :=
          { up1 with registeredSignals := up1.registeredSignals ++ [id1] }
        match os SIGTERM with
        | none => (up2, false)
        | some id2 =>
            ({ up2 with registeredSignals := up2.registeredSignals ++ [id2] }
            , true)

/-- `impl Drop for Upkeep` (lines 252-258): unregister every installed
handler.  Returns the new state and the list of unregistered `SigId`s. -/
def Upkeep.dropHandlers (up : Upkeep) : Upkeep × List Nat :=
  ({ up with registeredSignals := [] }, up.registeredSignals)

/-- What one invocation of the installed signal-handler closure
(lines 155-161) does to the process. -/
inductive HandlerOutcome
  | exited (code : Nat)
  | notified (flag : Bool) (queue : Nat)
deriving DecidableEq, Repr

/-- The signal-handler closure registered for SIGINT and SIGTERM
(lines 155-161): second signal exits the process with status 1;
first signal sets the one-shot flag and sends one `()` message. -/
def signalHandler (flag : Bool) (queue : Nat) : HandlerOutcome :=
  if flag then HandlerOutcome.exited 1
  else HandlerOutcome.notified true (queue + 1)

/-- Deliver one OS signal to a coordinator state: run the handler
closure against the shared flag and channel; `none` means the process
was terminated by `exit(1)`. -/
def Upkeep.deliverSignal (up : Upkeep) : Option Upkeep :=
  match signalHandler up.signalFlag up.signalQueue with
  | HandlerOutcome.exited _ => none
  | HandlerOutcome.notified f q =>
      some { up with signalFlag := f, signalQueue := q }

/-- An action that records a join whose outcome was a panic. -/
def Effect.isPanicJoin : Effect → Bool
  | Effect.joinAttempt _ JoinRes.panicked => true
  | Effect.joinFinal _ JoinRes.panicked => true
  | _ => false

/-- An action recorded by the Waiting loop (a join attempt). -/
def Effect.isJoinAttempt : Effect → Bool
  | Effect.joinAttempt _ _ => true
  | _ => false

/-! ## Shared lemmas about the Waiting loop and `keepalive` -/

/-- With an empty registry and an empty signal channel the `select_set`
holds only the signal receiver and `ready()` can never return: the
Waiting loop is permanently blocked. -/
theorem waitLoop_stuck (sched : List Event) (c : Bool) :
    waitLoop [] 0 c sched = none := by
  cases sched with
  | nil => rfl
  | cons e rest =>
    cases e with
    | signal => simp [waitLoop]
    | threadReady k res => simp [waitLoop]

/-- Invariants of the Waiting loop at its `break`: the `clean_exit` flag
equals the incoming flag ANDed with "no recorded join panicked"; the
registry at the break is an order-preserving subset of the incoming one;
and the loop records only join attempts (no stop requests, no callback
invocations). -/
theorem waitLoop_spec (sched : List Event) :
    ∀ ts q c ts' c' tr, waitLoop ts q c sched = some (ts', c', tr) →
      c' = (c && tr.all (fun a => !a.isPanicJoin)) ∧
      ts'.Sublist ts ∧ (∀ a ∈ tr, a.isJoinAttempt = true) := by
  induction sched with
  | nil => intro ts q c ts' c' tr h; simp [waitLoop] at h
  | cons e rest ih =>
    intro ts q c ts' c' tr h
    cases e with
    | signal =>
      simp only [waitLoop] at h
      split at h
      · simp only [Option.some.injEq, Prod.mk.injEq] at h
        obtain ⟨rfl, rfl, rfl⟩ := h
        exact ⟨by simp, List.Sublist.refl ts, by simp⟩
      · exact absurd h (by simp)
    | threadReady k res =>
      simp only [waitLoop] at h
      split at h
      · exact absurd h (by simp)
      next t hk =>
        by_cases hres : res = JoinRes.panicked
        · rw [if_pos hres] at h
          simp only [Option.some.injEq, Prod.mk.injEq] at h
          obtain ⟨rfl, rfl, rfl⟩ := h
          subst hres
          refine ⟨by simp [Effect.isPanicJoin], List.Sublist.refl ts, ?_⟩
          intro a ha
          simp only [List.mem_singleton] at ha
          subst ha
          rfl
        · rw [if_neg hres] at h
          have hact : Effect.isPanicJoin (Effect.joinAttempt t.tid res) = false := by
            cases res with
            | panicked => exact absurd rfl hres
            | ok => rfl
            | alreadyJoined => rfl
          by_cases hreq : t.required = true
          · rw [if_pos hreq] at h
            simp only [Option.some.injEq, Prod.mk.injEq] at h
            obtain ⟨rfl, rfl, rfl⟩ := h
            refine ⟨by simp [hact], List.Sublist.refl ts, ?_⟩
            intro a ha
            simp only [List.mem_singleton] at ha
            subst ha
            rfl
          · rw [if_neg hreq] at h
            obtain ⟨⟨ts0, c0, tr0⟩, hw, heq⟩ := Option.map_eq_some'.mp h
            simp only [Prod.mk.injEq] at heq
            obtain ⟨rfl, rfl, rfl⟩ := heq
            obtain ⟨hc, hsub, htr⟩ := ih (ts.eraseIdx k) q c ts0 c0 tr0 hw
            refine ⟨by simp [List.all_cons, hact, hc],
                    hsub.trans (List.eraseIdx_sublist ts k), ?_⟩
            intro a ha
            rcases List.mem_cons.mp ha with rfl | ha'
            · rfl
            · exact htr a ha'

/-- Unfolding of `keepalive` once the Waiting loop has broken out:
the verdict is `join_threads && clean_exit`, the registry is drained,
no other field changes, and the trace is the Waiting trace followed by
the stop broadcasts, then the callbacks, then the final joins. -/
theorem keepalive_intro (up : Upkeep) (sched : List Event) (env : Nat → JoinRes)
    (ts1 : List ThreadMeta) (c1 : Bool) (tr1 : List Effect)
    (hw : waitLoop up.threads up.signalQueue true sched = some (ts1, c1, tr1)) :
    up.keepalive sched env = some
      (ts1.all (fun t => joinOne (env t.tid)) && c1
      , { up with threads := [] }
      , tr1 ++ (ts1.map (fun t => Effect.requestStop t.tid)
            ++ up.callbacks.map (fun cb => Effect.runCallback cb))
          ++ ts1.map (fun t => Effect.joinFinal t.tid (env t.tid))) := by
  unfold Upkeep.keepalive
  rw [hw]
  rfl

/-- Inversion: any normal return of `keepalive` arises from a break of
the Waiting loop, with the verdict, drained state and ordered trace
determined by `shutdown` and `join_threads`. -/
theorem keepalive_elim (up : Upkeep) (sched : List Event) (env : Nat → JoinRes)
    (c : Bool) (up' : Upkeep) (tr : List Effect)
    (h : up.keepalive sched env = some (c, up', tr)) :
    ∃ ts1 c1 tr1,
      waitLoop up.threads up.signalQueue true sched = some (ts1, c1, tr1) ∧
      c = (ts1.all (fun t => joinOne (env t.tid)) && c1) ∧
      up' = { up with threads := [] } ∧
      tr = tr1 ++ (ts1.map (fun t => Effect.requestStop t.tid)
            ++ up.callbacks.map (fun cb => Effect.runCallback cb))
          ++ ts1.map (fun t => Effect.joinFinal t.tid (env t.tid)) := by
  cases hw : waitLoop up.threads up.signalQueue true sched with
  | none =>
    unfold Upkeep.keepalive at h
    rw [hw] at h
    exact absurd h (by simp)
  | some out =>
    obtain ⟨ts1, c1, tr1⟩ := out
    have h2 := keepalive_intro up sched env ts1 c1 tr1 hw
    rw [h] at h2
    simp only [Option.some.injEq, Prod.mk.injEq] at h2
    exact ⟨ts1, c1, tr1, rfl, h2.1, h2.2.1, h2.2.2⟩

/-- A blocked Waiting loop means `keepalive` never returns. -/
theorem keepalive_stuck (up : Upkeep) (sched : List Event) (env : Nat → JoinRes)
    (hth : up.threads = []) (hq : up.signalQueue = 0) :
    up.keepalive sched env = none := by
  unfold Upkeep.keepalive
  rw [hth, hq, waitLoop_stuck]

/-- The final join sweep is clean exactly when no final join panicked. -/
theorem joinFinal_all (ts : List ThreadMeta) (env : Nat → JoinRes) :
    (ts.map (fun t => Effect.joinFinal t.tid (env t.tid))).all
        (fun a => !a.isPanicJoin)
      = ts.all (fun t => joinOne (env t.tid)) := by
  induction ts with
  | nil => rfl
  | cons t rest ih =>
    have hhead : (!Effect.isPanicJoin (Effect.joinFinal t.tid (env t.tid)))
        = joinOne (env t.tid) := by
      cases env t.tid <;> rfl
    simp [List.all_cons, hhead, ih]

/-- Stop requests are never panics. -/
theorem requestStop_not_panic (ts : List ThreadMeta) :
    (ts.map (fun t => Effect.requestStop t.tid)).all
        (fun a => !a.isPanicJoin) = true := by
  induction ts with
  | nil => rfl
  | cons t rest ih =>
    have hh : Effect.isPanicJoin (Effect.requestStop t.tid) = false := rfl
    simp only [List.map_cons, List.all_cons, hh, Bool.not_false, Bool.true_and]
    exact ih

/-- Callback invocations are never panics. -/
theorem runCallback_not_panic (cs : List Nat) :
    (cs.map (fun cb => Effect.runCallback cb)).all
        (fun a => !a.isPanicJoin) = true := by
  induction cs with
  | nil => rfl
  | cons cb rest ih =>
    have hh : Effect.isPanicJoin (Effect.runCallback cb) = false := rfl
    simp only [List.map_cons, List.all_cons, hh, Bool.not_false, Bool.true_and]
    exact ih

/-! ## Claim theorems -/

/-- Claim C1: whenever `keepalive()` returns, its boolean verdict is the
conjunction of the Waiting-phase and Joining-phase cleanliness: it is
`false` if and only if at least one recorded join — in the Waiting loop
or in the final join sweep — produced a panic result.  A thread panic is
absorbed into this verdict: the return type (`Bool`, `some` here) carries
no error. -/
theorem c1_clean_iff_no_panic (up : Upkeep) (sched : List Event)
    (env : Nat → JoinRes) (c : Bool) (up' : Upkeep) (tr : List Effect)
    (h : up.keepalive sched env = some (c, up', tr)) :
    c = false ↔ ∃ a ∈ tr, a.isPanicJoin = true := by
  obtain ⟨ts1, c1, tr1, hw, hc, hup, htr⟩ := keepalive_elim up sched env c up' tr h
  obtain ⟨hc1, hsub, hwtr⟩ :=
    waitLoop_spec sched up.threads up.signalQueue true ts1 c1 tr1 hw
  have hcall : c = tr.all (fun a => !a.isPanicJoin) := by
    subst htr hc hc1
    simp only [List.all_append, joinFinal_all, requestStop_not_panic,
      runCallback_not_panic, Bool.true_and, Bool.and_true]
    cases ts1.all (fun t => joinOne (env t.tid)) <;>
      cases tr1.all (fun a => !a.isPanicJoin) <;> simp
  rw [hcall, List.all_eq_false]
  simp [Bool.not_eq_true]

/-- Witness for C1 at a concrete input: one required thread that panics in
the Waiting phase; the verdict is `false` and the trace holds its panic. -/
theorem c1_witness :
    (false = false ↔
      ∃ a ∈ [Effect.joinAttempt 0 JoinRes.panicked, Effect.requestStop 0,
             Effect.joinFinal 0 JoinRes.alreadyJoined], a.isPanicJoin = true) :=
  c1_clean_iff_no_panic
    { Upkeep.new with threads := [ThreadMeta.mk 0 true] }
    [Event.threadReady 0 JoinRes.panicked] (fun _ => JoinRes.alreadyJoined)
    false { Upkeep.new with threads := [] }
    [Effect.joinAttempt 0 JoinRes.panicked, Effect.requestStop 0,
     Effect.joinFinal 0 JoinRes.alreadyJoined] (by decide)

/-- Claim C2 counterexample: `shutdown` carries no executed-once guard.
With one registered callback, a first call to `shutdown()` invokes the
callback — and so does a second call: the second call is not a no-op,
re-invoking the callback, so the shutdown transition does not execute
exactly once per coordinator. -/
theorem c2_counterexample :
    ((Upkeep.new.on_shutdown 0).shutdown).2 = [Effect.runCallback 0] ∧
    (((Upkeep.new.on_shutdown 0).shutdown).1.shutdown).2
      = [Effect.runCallback 0] :=
  ⟨rfl, rfl⟩

/-- Claim C2 amended: the shutdown transition is unguarded and runs on
every call.  After `keepalive()` has completed, a further `shutdown()`
leaves the state unchanged and re-sends no stop requests — the registry
was drained — but it re-invokes every registered callback, so it is a
no-op only when no callbacks are registered. -/
theorem c2_amended_shutdown_not_guarded (up : Upkeep) (sched : List Event)
    (env : Nat → JoinRes) (c : Bool) (up' : Upkeep) (tr : List Effect)
    (h : up.keepalive sched env = some (c, up', tr)) :
    up'.shutdown = (up', up.callbacks.map (fun cb => Effect.runCallback cb)) := by
  obtain ⟨ts1, c1, tr1, hw, hc, hup, htr⟩ := keepalive_elim up sched env c up' tr h
  subst hup
  simp [Upkeep.shutdown]

/-- Witness for the amended C2: a coordinator with one callback completes
a signal-triggered `keepalive()`; the subsequent `shutdown()` sends no
stop request but re-invokes the callback. -/
theorem c2_witness :
    Upkeep.shutdown { Upkeep.new with callbacks := [9], signalQueue := 1 }
      = ({ Upkeep.new with callbacks := [9], signalQueue := 1 }
        , [Effect.runCallback 9]) :=
  c2_amended_shutdown_not_guarded
    { Upkeep.new with callbacks := [9], signalQueue := 1 }
    [Event.signal] (fun _ => JoinRes.ok) true
    { Upkeep.new with callbacks := [9], signalQueue := 1 }
    [Effect.runCallback 9] (by decide)

/-- Claim C3: an optional thread whose completion source fires in the
Waiting phase and whose join succeeds is removed — exactly it — from the
registry and the coordinator remains in Waiting: processing that event is
the same as running `keepalive` from the state with that thread erased,
except for recording the (clean) join attempt; in particular no stop
request or callback is recorded for the event and `keepalive` does not
return on it. -/
theorem c3_optional_clean_exit (up : Upkeep) (k : Nat) (t : ThreadMeta)
    (rest : List Event) (env : Nat → JoinRes)
    (hk : up.threads[k]? = some t) (hreq : t.required = false) :
    up.keepalive (Event.threadReady k JoinRes.ok :: rest) env =
      (Upkeep.keepalive { up with threads := up.threads.eraseIdx k } rest env).map
        (fun out => (out.1, out.2.1,
          Effect.joinAttempt t.tid JoinRes.ok :: out.2.2)) := by
  have hloop : waitLoop up.threads up.signalQueue true
      (Event.threadReady k JoinRes.ok :: rest)
      = (waitLoop (up.threads.eraseIdx k) up.signalQueue true rest).map
          (fun out => (out.1, out.2.1,
            Effect.joinAttempt t.tid JoinRes.ok :: out.2.2)) := by
    simp only [waitLoop, hk]
    rw [if_neg (by simp), if_neg (by simp [hreq])]
  cases hw : waitLoop (up.threads.eraseIdx k) up.signalQueue true rest with
  | none =>
    have h1 : up.keepalive (Event.threadReady k JoinRes.ok :: rest) env = none := by
      unfold Upkeep.keepalive
      rw [hloop, hw]
      rfl
    have h2 : Upkeep.keepalive { up with threads := up.threads.eraseIdx k }
        rest env = none := by
      unfold Upkeep.keepalive
      rw [show ({ up with threads := up.threads.eraseIdx k } : Upkeep).threads
            = up.threads.eraseIdx k from rfl]
      rw [show ({ up with threads := up.threads.eraseIdx k } : Upkeep).signalQueue
            = up.signalQueue from rfl]
      rw [hw]
    rw [h1, h2]
    rfl
  | some out =>
    obtain ⟨ts1, c1, tr1⟩ := out
    have h1 := keepalive_intro up (Event.threadReady k JoinRes.ok :: rest) env
      ts1 c1 (Effect.joinAttempt t.tid JoinRes.ok :: tr1) (by rw [hloop, hw]; rfl)
    have h2 := keepalive_intro { up with threads := up.threads.eraseIdx k }
      rest env ts1 c1 tr1 hw
    rw [h1, h2]
    rfl

/-- Witness for C3: one optional thread exits cleanly; with nothing else
scheduled, `keepalive` keeps waiting (it does not return on the event). -/
theorem c3_witness :
    Upkeep.keepalive { Upkeep.new with threads := [ThreadMeta.mk 3 false] }
      [Event.threadReady 0 JoinRes.ok] (fun _ => JoinRes.ok) = none := by
  rw [c3_optional_clean_exit { Upkeep.new with threads := [ThreadMeta.mk 3 false] }
    0 (ThreadMeta.mk 3 false) [] (fun _ => JoinRes.ok) rfl rfl]
  rfl

/-- Claim C4: whenever the shutdown transition runs (that is, whenever
`keepalive` returns), the full trace is the Waiting-phase join attempts,
then a stop request to every still-registered thread in registry order,
then every registered callback in registration order, then — strictly
after all of those — the blocking joins of the final sweep; the
still-registered threads are an order-preserving subset of the original
registry. -/
theorem c4_shutdown_ordering (up : Upkeep) (sched : List Event)
    (env : Nat → JoinRes) (c : Bool) (up' : Upkeep) (tr : List Effect)
    (h : up.keepalive sched env = some (c, up', tr)) :
    ∃ waitTr ts, List.Sublist ts up.threads ∧
      (∀ a ∈ waitTr, a.isJoinAttempt = true) ∧
      tr = waitTr ++ ts.map (fun t => Effect.requestStop t.tid)
          ++ up.callbacks.map (fun cb => Effect.runCallback cb)
          ++ ts.map (fun t => Effect.joinFinal t.tid (env t.tid)) := by
  obtain ⟨ts1, c1, tr1, hw, hc, hup, htr⟩ := keepalive_elim up sched env c up' tr h
  obtain ⟨_, hsub, hwtr⟩ :=
    waitLoop_spec sched up.threads up.signalQueue true ts1 c1 tr1 hw
  refine ⟨tr1, ts1, hsub, hwtr, ?_⟩
  rw [htr]
  simp [List.append_assoc]

/-- Witness for C4: a required thread exits cleanly; its stop request,
the lone callback and its final join appear in exactly that order. -/
theorem c4_witness :
    ∃ waitTr ts, List.Sublist ts [ThreadMeta.mk 4 true] ∧
      (∀ a ∈ waitTr, a.isJoinAttempt = true) ∧
      [Effect.joinAttempt 4 JoinRes.ok, Effect.requestStop 4,
       Effect.runCallback 1, Effect.joinFinal 4 JoinRes.alreadyJoined]
        = waitTr ++ ts.map (fun t => Effect.requestStop t.tid)
            ++ [1].map (fun cb => Effect.runCallback cb)
            ++ ts.map (fun t => Effect.joinFinal t.tid JoinRes.alreadyJoined) :=
  c4_shutdown_ordering
    { Upkeep.new with callbacks := [1], threads := [ThreadMeta.mk 4 true] }
    [Event.threadReady 0 JoinRes.ok] (fun _ => JoinRes.alreadyJoined) true
    { Upkeep.new with callbacks := [1], threads := [] }
    [Effect.joinAttempt 4 JoinRes.ok, Effect.requestStop 4,
     Effect.runCallback 1, Effect.joinFinal 4 JoinRes.alreadyJoined] (by decide)

/-- Claim C5 counterexample: a required thread whose Waiting-phase join
fails with an already-joined error is NOT removed-and-continued.  The
`_ => false` arm leaves `paniced = false`, after which the
`if thread.required` branch breaks out of the loop: `keepalive` returns
on that very event and broadcasts a stop request — the claim instead
predicts removal, continued waiting (result `none` on this one-event
schedule) and no shutdown trigger. -/
theorem c5_counterexample :
    Upkeep.keepalive { Upkeep.new with threads := [ThreadMeta.mk 7 true] }
        [Event.threadReady 0 JoinRes.alreadyJoined]
        (fun _ => JoinRes.alreadyJoined)
      = some (true
        , { Upkeep.new with threads := [] }
        , [Effect.joinAttempt 7 JoinRes.alreadyJoined, Effect.requestStop 7,
           Effect.joinFinal 7 JoinRes.alreadyJoined]) := by
  decide

/-- Claim C5 amended: an already-joined error in the Waiting phase is
handled exactly like a successful join — the code logs nothing there and
never as an error.  For an optional thread it is removed and the
coordinator continues Waiting; for a required thread the event triggers
shutdown through the thread-exited branch.  In both cases the clean
verdict is unaffected. -/
theorem c5_already_joined_like_clean_exit (up : Upkeep) (k : Nat)
    (t : ThreadMeta) (rest : List Event) (env : Nat → JoinRes)
    (hk : up.threads[k]? = some t) :
    (t.required = true →
      up.keepalive (Event.threadReady k JoinRes.alreadyJoined :: rest) env =
        some (up.threads.all (fun s => joinOne (env s.tid))
          , { up with threads := [] }
          , Effect.joinAttempt t.tid JoinRes.alreadyJoined ::
              (up.threads.map (fun s => Effect.requestStop s.tid)
                ++ up.callbacks.map (fun cb => Effect.runCallback cb)
                ++ up.threads.map (fun s => Effect.joinFinal s.tid (env s.tid))))) ∧
    (t.required = false →
      up.keepalive (Event.threadReady k JoinRes.alreadyJoined :: rest) env =
        (Upkeep.keepalive { up with threads := up.threads.eraseIdx k } rest env).map
          (fun out => (out.1, out.2.1,
            Effect.joinAttempt t.tid JoinRes.alreadyJoined :: out.2.2))) := by
  constructor
  · intro hreq
    have hloop : waitLoop up.threads up.signalQueue true
        (Event.threadReady k JoinRes.alreadyJoined :: rest)
        = some (up.threads, true,
            [Effect.joinAttempt t.tid JoinRes.alreadyJoined]) := by
      simp only [waitLoop, hk]
      rw [if_neg (by simp), if_pos hreq]
    have h1 := keepalive_intro up
      (Event.threadReady k JoinRes.alreadyJoined :: rest) env
      up.threads true [Effect.joinAttempt t.tid JoinRes.alreadyJoined] hloop
    rw [h1]
    simp [List.append_assoc]
  · intro hreq
    have hloop : waitLoop up.threads up.signalQueue true
        (Event.threadReady k JoinRes.alreadyJoined :: rest)
        = (waitLoop (up.threads.eraseIdx k) up.signalQueue true rest).map
            (fun out => (out.1, out.2.1,
              Effect.joinAttempt t.tid JoinRes.alreadyJoined :: out.2.2)) := by
      simp only [waitLoop, hk]
      rw [if_neg (by simp), if_neg (by simp [hreq])]
    cases hw : waitLoop (up.threads.eraseIdx k) up.signalQueue true rest with
    | none =>
      have h1 : up.keepalive
          (Event.threadReady k JoinRes.alreadyJoined :: rest) env = none := by
        unfold Upkeep.keepalive
        rw [hloop, hw]
        rfl
      have h2 : Upkeep.keepalive { up with threads := up.threads.eraseIdx k }
          rest env = none := by
        unfold Upkeep.keepalive
        rw [show ({ up with threads := up.threads.eraseIdx k } : Upkeep).threads
              = up.threads.eraseIdx k from rfl]
        rw [show ({ up with threads := up.threads.eraseIdx k } : Upkeep).signalQueue
              = up.signalQueue from rfl]
        rw [hw]
      rw [h1, h2]
      rfl
    | some out =>
      obtain ⟨ts1, c1, tr1⟩ := out
      have h1 := keepalive_intro up
        (Event.threadReady k JoinRes.alreadyJoined :: rest) env ts1 c1
        (Effect.joinAttempt t.tid JoinRes.alreadyJoined :: tr1)
        (by rw [hloop, hw]; rfl)
      have h2 := keepalive_intro { up with threads := up.threads.eraseIdx k }
        rest env ts1 c1 tr1 hw
      rw [h1, h2]
      rfl

/-- Witness for the amended C5: a required thread reports already-joined;
`keepalive` returns on the event with shutdown triggered and a clean
verdict. -/
theorem c5_witness :
    Upkeep.keepalive { Upkeep.new with threads := [ThreadMeta.mk 2 true] }
        [Event.threadReady 0 JoinRes.alreadyJoined] (fun _ => JoinRes.ok)
      = some (true
        , { Upkeep.new with threads := [] }
        , [Effect.joinAttempt 2 JoinRes.alreadyJoined, Effect.requestStop 2,
           Effect.joinFinal 2 JoinRes.ok]) := by
  have h := (c5_already_joined_like_clean_exit
    { Upkeep.new with threads := [ThreadMeta.mk 2 true] } 0 (ThreadMeta.mk 2 true)
    [] (fun _ => JoinRes.ok) rfl).1 rfl
  exact h

/-- Claim C6 counterexample: with zero registered threads and no pending
signal, `shutdown()` followed by `keepalive()` does not return `true`
immediately — it never returns at all: the select set holds only the
(empty, still-connected) signal channel, so no schedule of events lets
the Waiting loop break. -/
theorem c6_counterexample :
    ¬ ∃ (sched : List Event) (env : Nat → JoinRes)
        (out : Bool × Upkeep × List Effect),
        Upkeep.keepalive ((Upkeep.new).shutdown).1 sched env = some out := by
  rintro ⟨sched, env, out, h⟩
  rw [keepalive_stuck ((Upkeep.new).shutdown).1 sched env rfl rfl] at h
  exact Option.noConfusion h

/-- Claim C6 amended: with zero registered threads and an empty signal
channel, `shutdown()` followed by `keepalive()` blocks forever: the
Waiting loop has only the signal source, which never fires, so
`keepalive` never returns (in particular it does not return `true`). -/
theorem c6_keepalive_blocks_on_empty_registry (up : Upkeep)
    (sched : List Event) (env : Nat → JoinRes)
    (hth : up.threads = []) (hq : up.signalQueue = 0) :
    Upkeep.keepalive ((up.shutdown).1) sched env = none :=
  keepalive_stuck ((up.shutdown).1) sched env hth hq

/-- Witness for the amended C6 at the freshly constructed coordinator. -/
theorem c6_witness :
    Upkeep.keepalive ((Upkeep.new).shutdown).1 [Event.signal]
      (fun _ => JoinRes.ok) = none :=
  c6_keepalive_blocks_on_empty_registry Upkeep.new [Event.signal]
    (fun _ => JoinRes.ok) rfl rfl

/-- Claim C7 counterexample: after a signal arrives and a clean
signal-triggered shutdown completes, the coordinator state is returned
unchanged (registry empty, one never-consumed message still in the signal
channel).  The displayed `keepalive` call is therefore both the first and
the second call from that state — and its trace re-invokes callback 5, so
the second call is NOT free of side effects.  (And after a clean shutdown
that was not signal-triggered the second call does not return at all.) -/
theorem c7_counterexample :
    (Upkeep.new.on_shutdown 5).deliverSignal
      = some { Upkeep.new with
               callbacks := [5], signalFlag := true, signalQueue := 1 } ∧
    Upkeep.keepalive
        { Upkeep.new with
          callbacks := [5], signalFlag := true, signalQueue := 1 }
        [Event.signal] (fun _ => JoinRes.ok)
      = some (true
        , { Upkeep.new with
            callbacks := [5], signalFlag := true, signalQueue := 1 }
        , [Effect.runCallback 5]) :=
  ⟨rfl, rfl⟩

/-- Claim C7 amended: after `keepalive()` has returned, a second
`keepalive()` performs no joins and sends no stop requests (the registry
is empty), and: if a signal message is pending — the only way the first
shutdown can have been signal-triggered, since `ready()` never consumes
it — the second call returns `true` without blocking but re-invokes every
registered callback; if no signal message is pending, the second call
never returns. -/
theorem c7_second_keepalive (up : Upkeep) (sched : List Event)
    (env : Nat → JoinRes) (c : Bool) (up' : Upkeep) (tr : List Effect)
    (h : up.keepalive sched env = some (c, up', tr)) :
    (0 < up.signalQueue →
      Upkeep.keepalive up' [Event.signal] env =
        some (true, up', up.callbacks.map (fun cb => Effect.runCallback cb))) ∧
    (up.signalQueue = 0 →
      ∀ sched2 env2, Upkeep.keepalive up' sched2 env2 = none) := by
  obtain ⟨ts1, c1, tr1, hw, hc, hup, htr⟩ := keepalive_elim up sched env c up' tr h
  subst hup
  constructor
  · intro hq
    have hw2 : waitLoop ({ up with threads := [] } : Upkeep).threads
        ({ up with threads := [] } : Upkeep).signalQueue true [Event.signal]
        = some ([], true, []) := by
      simp only [waitLoop]
      exact if_pos hq
    have h1 := keepalive_intro { up with threads := [] } [Event.signal] env
      [] true [] hw2
    simpa using h1
  · intro hq sched2 env2
    exact keepalive_stuck { up with threads := [] } sched2 env2 rfl hq

/-- Witness for the amended C7: clean signal shutdown with one callback;
the second `keepalive` returns `true` with the callback re-invoked. -/
theorem c7_witness :
    Upkeep.keepalive { Upkeep.new with callbacks := [5], signalQueue := 1 }
        [Event.signal] (fun _ => JoinRes.ok)
      = some (true
        , { Upkeep.new with callbacks := [5], signalQueue := 1 }
        , [Effect.runCallback 5]) :=
  (c7_second_keepalive { Upkeep.new with callbacks := [5], signalQueue := 1 }
    [Event.signal] (fun _ => JoinRes.ok) true
    { Upkeep.new with callbacks := [5], signalQueue := 1 }
    [Effect.runCallback 5] (by decide)).1 (by decide)

/-- Claim C8: one invocation of the installed SIGINT/SIGTERM handler
closure: with the one-shot flag already set it terminates the process
immediately with the non-zero status 1, bypassing all shutdown logic;
otherwise it sets the flag and pushes exactly one notification onto the
signal channel (the send is non-blocking: the channel is unbounded and
the result is discarded). -/
theorem c8_signal_handler_behavior (q : Nat) :
    signalHandler true q = HandlerOutcome.exited 1 ∧
    (1 : Nat) ≠ 0 ∧
    signalHandler false q = HandlerOutcome.notified true (q + 1) :=
  ⟨rfl, by decide, rfl⟩

/-- Claim C9: calling `register_signal()` after the internal sender has
been taken returns `Ok(())` immediately, installs no handler and leaves
the whole state unchanged. -/
theorem c9_register_signal_noop (up : Upkeep) (os : Nat → Option Nat)
    (h : up.signalSenderTaken = true) :
    up.register_signal os = (up, true) := by
  simp [Upkeep.register_signal, h]

/-- Witness for C9 at a concrete taken-sender state. -/
theorem c9_witness :
    Upkeep.register_signal { Upkeep.new with signalSenderTaken := true }
        (fun _ => none)
      = ({ Upkeep.new with signalSenderTaken := true }, true) :=
  c9_register_signal_noop { Upkeep.new with signalSenderTaken := true }
    (fun _ => none) rfl

/-- Claim C10: `register_signal()` is not atomic on failure.  If the
SIGINT handler installs but the SIGTERM handler fails, the error is
returned while the SIGINT handler remains in `registered_signals` (it is
removed only by `Drop`), and the sender has already been consumed, so a
subsequent `register_signal()` returns `Ok(())` as a no-op without
attempting to install the missing handler. -/
theorem c10_register_signal_not_atomic (up : Upkeep) (os : Nat → Option Nat)
    (id1 : Nat) (hsend : up.signalSenderTaken = false)
    (hint : os SIGINT = some id1) (hterm : os SIGTERM = none) :
    (up.register_signal os).2 = false ∧
    (up.register_signal os).1.signalSenderTaken = true ∧
    (up.register_signal os).1.registeredSignals
      = up.registeredSignals ++ [id1] ∧
    Upkeep.register_signal (up.register_signal os).1 os
      = ((up.register_signal os).1, true) ∧
    ((up.register_signal os).1.dropHandlers).2
      = up.registeredSignals ++ [id1] ∧
    ((up.register_signal os).1.dropHandlers).1.registeredSignals = [] := by
  have hstep : up.register_signal os
      = ({ up with
            signalSenderTaken := true
            registeredSignals := up.registeredSignals ++ [id1] }, false) := by
    unfold Upkeep.register_signal
    rw [hsend]
    simp [hint, hterm]
  rw [hstep]
  refine ⟨rfl, rfl, rfl, ?_, rfl, rfl⟩
  simp [Upkeep.register_signal]

/-- Witness for C10: a fresh coordinator against an OS that accepts the
SIGINT registration (id 42) and refuses SIGTERM. -/
theorem c10_witness :
    (Upkeep.register_signal Upkeep.new
        (fun s => if s = SIGINT then some 42 else none)).2 = false :=
  (c10_register_signal_not_atomic Upkeep.new
    (fun s => if s = SIGINT then some 42 else none) 42 rfl (by decide)
    (by decide)).1
